import Mathlib

/-!
Verification development for the pelican image-process plugin
(`pelican/plugins/image_process/image_process.py`).

The Python module is shallowly embedded: Python floats are modelled by `ℚ`
(the operations used — division, min, max, comparison, truncation — are exact
on the decimal literals the plugin parses), fallible Python code returns
`Option`/`Except`, the filesystem is a map from path strings to optional
file metadata, and PIL images are records carrying their size, mode and the
history of PIL calls applied to them.  Definitions follow the source
function by function; deliberate deviations are noted in doc comments.
-/

namespace ImageProcess

/-! ## Python numeric and string primitives -/

/-- Truncation toward zero, as Python's `int()` applied to a float.
`Int.tdiv` truncates toward zero, so `num / den` of a reduced fraction is
exactly the truncation of the rational. -/
def pyInt (q : ℚ) : ℤ := Int.tdiv q.num q.den

/-- Value of a decimal digit character. -/
def digitVal (c : Char) : Option ℕ := if c.isDigit then some (c.toNat - 48) else none

/-- All-digit parse of a character list. -/
def decDigits (l : List Char) : Option (List ℕ) := l.mapM digitVal

/-- Accumulate a digit list into a natural number. -/
def natOfDigits (ds : List ℕ) : ℕ := ds.foldl (fun a d => 10 * a + d) 0

/-- Magnitude part of a Python float literal: digits with at most one dot,
at least one digit overall (`"12"`, `"12.5"`, `"12."`, `".5"`). -/
def pyFloatMag (l : List Char) : Option ℚ :=
  let intPart := l.takeWhile (fun c => c ≠ '.')
  let rest := l.dropWhile (fun c => c ≠ '.')
  match rest with
  | [] =>
    if intPart.isEmpty then none
    else (decDigits intPart).map (fun ds => (natOfDigits ds : ℚ))
  | _ :: fracPart =>
    if fracPart.contains '.' then none
    else if intPart.isEmpty && fracPart.isEmpty then none
    else
      match decDigits intPart, decDigits fracPart with
      | some i, some f =>
        some ((natOfDigits i : ℚ) + (natOfDigits f : ℚ) / ((10 : ℚ) ^ fracPart.length))
      | _, _ => none

/-- Model of Python `float(s)` on the plain decimal-literal fragment
(optional sign, digits, optional single dot).  Python also accepts
whitespace, exponents and special values, which the plugin never uses;
those strings are mapped to `none` (a parse failure) here. -/
def pyFloat (s : String) : Option ℚ :=
  match s.data with
  | '+' :: rest => pyFloatMag rest
  | '-' :: rest => (pyFloatMag rest).map (fun q => -q)
  | l => pyFloatMag l

/-- Model of Python `int(s)` on integer literals (optional sign, digits). -/
def pyIntStr (s : String) : Option ℤ :=
  match s.data with
  | '+' :: rest =>
    if rest.isEmpty then none else (decDigits rest).map (fun ds => (natOfDigits ds : ℤ))
  | '-' :: rest =>
    if rest.isEmpty then none else (decDigits rest).map (fun ds => -(natOfDigits ds : ℤ))
  | l =>
    if l.isEmpty then none else (decDigits l).map (fun ds => (natOfDigits ds : ℤ))

/-- Value of a hexadecimal digit character. -/
def hexVal (c : Char) : Option ℕ :=
  if c.isDigit then some (c.toNat - 48)
  else if 97 ≤ c.toNat && c.toNat ≤ 102 then some (c.toNat - 87)
  else if 65 ≤ c.toNat && c.toNat ≤ 70 then some (c.toNat - 55)
  else none

/-- Uppercase hexadecimal digit of a value below 16. -/
def hexDigit (n : ℕ) : Char := if n < 10 then Char.ofNat (48 + n) else Char.ofNat (55 + n)

/-- Percent-decoding scan of `urllib.parse.unquote`: a `%` followed by two
hex digits becomes the character of that code; invalid sequences are kept
literally.  Multi-byte UTF-8 sequences are not reassembled (the paths the
plugin handles in this development are ASCII). -/
def unquoteChars : List Char → List Char
  | [] => []
  | '%' :: h1 :: h2 :: rest =>
    match hexVal h1, hexVal h2 with
    | some a, some b => Char.ofNat (16 * a + b) :: unquoteChars rest
    | _, _ => '%' :: unquoteChars (h1 :: h2 :: rest)
  | '%' :: rest => '%' :: unquoteChars rest
  | c :: rest => c :: unquoteChars rest

/-- Model of `urllib.parse.unquote` (and of posix `url2pathname`, which is
`unquote` of the path). -/
def pyUnquote (s : String) : String := String.mk (unquoteChars s.data)

/-- Characters `urllib.parse.quote` never escapes with its default
`safe="/"`: letters, digits, `_.-~` and the slash. -/
def quoteSafe (c : Char) : Bool :=
  c.isAlpha || c.isDigit || c = '_' || c = '.' || c = '-' || c = '~' || c = '/'

/-- Model of `urllib.parse.quote` with its default `safe="/"` (also of posix
`pathname2url`, which is `quote` of the path).  ASCII characters only. -/
def pyQuote (s : String) : String :=
  String.mk (s.data.foldr
    (fun c acc =>
      if quoteSafe c then c :: acc
      else '%' :: hexDigit (c.toNat / 16) :: hexDigit (c.toNat % 16) :: acc)
    [])

/-- Structural model of `String.startsWith` (Python `str.startswith`);
the core version is compiled by well-founded recursion and does not
reduce in proofs. -/
def pyStartsWith (s pre : String) : Bool := pre.data.isPrefixOf s.data

/-- Structural model of `String.endsWith` (Python `str.endswith`). -/
def pyEndsWith (s suf : String) : Bool := suf.data.isSuffixOf s.data

/-- Structural model of `String.drop` (Python slicing `s[n:]`). -/
def strDrop (s : String) (n : ℕ) : String := String.mk (s.data.drop n)

/-- Structural model of `String.contains`. -/
def strContains (s : String) (c : Char) : Bool := s.data.contains c

/-- Structural model of Python `step.split(" ")` (single-space separator,
consecutive separators produce empty fields). -/
def splitOnSpaceAux : List Char → List Char → List String
  | acc, [] => [String.mk acc.reverse]
  | acc, ' ' :: rest => String.mk acc.reverse :: splitOnSpaceAux [] rest
  | acc, c :: rest => splitOnSpaceAux (c :: acc) rest

/-- Python `step.split(" ")` on strings. -/
def splitOnSpace (s : String) : List String := splitOnSpaceAux [] s.data

/-- Two-argument `posixpath.join` (identical to `os.path.join` on posix). -/
def join2 (a b : String) : String :=
  if pyStartsWith b "/" then b
  else if a = "" || pyEndsWith a "/" then a ++ b
  else a ++ "/" ++ b

/-- Three-argument posix path join. -/
def join3 (a b c : String) : String := join2 (join2 a b) c

/-- Four-argument posix path join. -/
def join4 (a b c d : String) : String := join2 (join3 a b c) d

/-- Model of `posixpath.split` / `os.path.split`: split after the last
slash; the head keeps no trailing slashes unless it is all slashes. -/
def pathSplit (p : String) : String × String :=
  let cs := p.data
  let tail := (cs.reverse.takeWhile (fun c => c ≠ '/')).reverse
  let head := cs.take (cs.length - tail.length)
  let head2 :=
    if head.isEmpty || head.all (fun c => c = '/') then head
    else (head.reverse.dropWhile (fun c => c = '/')).reverse
  (String.mk head2, String.mk tail)

/-- Model of `posixpath.dirname`. -/
def posixDirname (p : String) : String := (pathSplit p).1

/-- Model of Python `str.lstrip("/")`. -/
def lstripSlash (s : String) : String := String.mk (s.data.dropWhile (fun c => c = '/'))

/-- Model of `s.partition(sep)[2]`: the part after the first occurrence of
`sep`, or the empty string if `sep` does not occur. -/
def afterFirstAux (sep : List Char) : List Char → Option (List Char)
  | [] => if sep.isPrefixOf ([] : List Char) then some [] else none
  | c :: rest =>
    if sep.isPrefixOf (c :: rest) then some ((c :: rest).drop sep.length)
    else afterFirstAux sep rest

/-- Model of `s.partition(sep)[2]` on strings. -/
def afterFirst (s sep : String) : String :=
  match afterFirstAux sep.data s.data with
  | some r => String.mk r
  | none => ""

/-- Scheme characters accepted by `urllib.parse.urlparse` (first character
alphabetic, then letters, digits, `+-.`). -/
def validSchemeChars (l : List Char) : Bool :=
  match l with
  | [] => false
  | c :: rest => c.isAlpha && rest.all (fun d => d.isAlpha || d.isDigit || d = '+' || d = '-' || d = '.')

/-- Remove a leading `scheme:` if present. -/
def splitScheme (cs : List Char) : List Char :=
  let pre := cs.takeWhile (fun c => c ≠ ':')
  if pre.length < cs.length && validSchemeChars pre then cs.drop (pre.length + 1) else cs

/-- Remove a leading `//netloc` if present. -/
def dropNetloc : List Char → List Char
  | '/' :: '/' :: rest => rest.dropWhile (fun c => c ≠ '/')
  | cs => cs

/-- Model of `urllib.parse.urlparse(u).path` for URLs without query,
fragment or params (the forms the plugin receives). -/
def urlparsePath (u : String) : String := String.mk (dropNetloc (splitScheme u.data))

/-- Characters matched by the marker-name part of
`IMAGE_PROCESS_REGEX = image-process-[-a-zA-Z0-9_]+`. -/
def isMarkerChar (c : Char) : Bool := c = '-' || c = '_' || c.isAlpha || c.isDigit

/-- Does the regex `image-process-[-a-zA-Z0-9_]+` match at the head of the
list? -/
def markerAt (l : List Char) : Bool :=
  "image-process-".data.isPrefixOf l &&
    (match l.drop 14 with
     | c :: _ => isMarkerChar c
     | [] => false)

/-- Unanchored scan, as `re.search`. -/
def markerSearchAux : List Char → Bool
  | [] => false
  | c :: rest => markerAt (c :: rest) || markerSearchAux rest

/-- Model of `IMAGE_PROCESS_REGEX.search(s)` as used by BeautifulSoup's
`class_` filter on each individual class string. -/
def markerSearch (s : String) : Bool := markerSearchAux s.data

/-! ## PIL image model

An image is its pixel size, its color mode, and the history of PIL calls
applied to it, so distinct transformation chains yield distinct values. -/

/-- One primitive PIL call recorded in an image's history.  The rotate
record keeps only the angle: the rotated canvas size involves
floating-point trigonometry and is not tracked (no claim depends on it). -/
inductive PilCall where
  | cropBox (left top right bottom : ℤ)
  | resizeTo (w h : ℤ) (filt : String)
  | convertMode (m : String)
  | transposeDir (d : String)
  | rotateBy (deg : ℤ)
  | filterBy (f : String)
deriving DecidableEq, Repr

/-- Model of a PIL image. -/
structure PImage where
  width : ℤ
  height : ℤ
  mode : String
  hist : List PilCall := []
deriving DecidableEq, Repr

/-- PIL `Image.crop(box)`: the result has size `(right-left, bottom-top)`. -/
def PImage.cropIm (i : PImage) (l t r b : ℤ) : PImage :=
  { width := r - l, height := b - t, mode := i.mode, hist := i.hist ++ [.cropBox l t r b] }

/-- PIL `Image.resize((w, h), filt)`. -/
def PImage.resizeIm (i : PImage) (w h : ℤ) (filt : String) : PImage :=
  { width := w, height := h, mode := i.mode, hist := i.hist ++ [.resizeTo w h filt] }

/-- PIL `Image.convert(m)`. -/
def PImage.convertIm (i : PImage) (m : String) : PImage :=
  { i with mode := m, hist := i.hist ++ [.convertMode m] }

/-- PIL `Image.transpose(d)` for the two mirror flips (size preserved). -/
def PImage.transposeIm (i : PImage) (d : String) : PImage :=
  { i with hist := i.hist ++ [.transposeDir d] }

/-- PIL `Image.rotate(deg, BICUBIC, True)`; see `PilCall.rotateBy` on the
untracked canvas size. -/
def PImage.rotateIm (i : PImage) (deg : ℤ) : PImage :=
  { i with hist := i.hist ++ [.rotateBy deg] }

/-- PIL `Image.filter(f)` (size and mode preserved). -/
def PImage.filterIm (i : PImage) (f : String) : PImage :=
  { i with hist := i.hist ++ [.filterBy f] }

/-- The mode coercion repeated before resampling operations in the source:
palette images to RGBA, 1-bit images to 8-bit grayscale. -/
def modeCoerce (i : PImage) : PImage :=
  if i.mode = "P" then i.convertIm "RGBA"
  else if i.mode = "1" then i.convertIm "L"
  else i

/-! ## Coordinate resolver and transform pipeline -/

/-- One parameter conversion of `convert_box`: a string ending in `%` is a
fraction of `dim`, otherwise `float()` of the string.  The source indexes
`s[-1]`, which raises on the empty string; that failure is merged with the
`float()` parse failure into `none`. -/
def resolveCoord (dim : ℤ) (s : String) : Option ℚ :=
  if s.data.getLast? = some '%' then
    (pyFloat (String.mk s.data.dropLast)).map (fun p => (dim : ℚ) * p / 100)
  else pyFloat s

/-- Source `convert_box(image, top, left, right, bottom)`: top and bottom
are resolved against the height, left and right against the width. -/
def convert_box (i : PImage) (top left right bottom : String) : Option (ℚ × ℚ × ℚ × ℚ) :=
  match resolveCoord i.height top, resolveCoord i.width left,
        resolveCoord i.width right, resolveCoord i.height bottom with
  | some t, some l, some r, some b => some (t, l, r, b)
  | _, _, _, _ => none

/-- Source `crop(i, left, top, right, bottom)`: note the parameter order of
the signature; it calls `convert_box(i, top, left, right, bottom)` and
crops PIL-style to `(left, top, right, bottom)` truncated. -/
def crop (i : PImage) (left top right bottom : String) : Option PImage :=
  match convert_box i top left right bottom with
  | some (t, l, r, b) => some (i.cropIm (pyInt l) (pyInt t) (pyInt r) (pyInt b))
  | none => none

/-- Source `resize(i, w, h)`. -/
def resize (i : PImage) (w h : String) : Option PImage :=
  match convert_box i "0" "0" w h with
  | some (_, _, w2, h2) => some ((modeCoerce i).resizeIm (pyInt w2) (pyInt h2) "LANCZOS")
  | none => none

/-- A Python value as it can reach the `upscale` parameter of `scale`:
`0`, `"0"`, `"False"`, `False`, or any other int/string/bool. -/
inductive PyVal where
  | int (n : ℤ)
  | str (s : String)
  | bool (b : Bool)
deriving DecidableEq, Repr

/-- Python `==` on the values above (`0 == False` is true, `"0" == 0` is
false). -/
def pyEq : PyVal → PyVal → Bool
  | .int a, .int b => a = b
  | .str a, .str b => a = b
  | .bool a, .bool b => a = b
  | .int a, .bool b => a = (if b then (1 : ℤ) else 0)
  | .bool a, .int b => (if a then (1 : ℤ) else 0) = b
  | _, _ => false

/-- Source test `upscale in [0, "0", "False", False]` (Python `in` uses
`==` on each element). -/
def isFalsyUpscale (u : PyVal) : Bool :=
  pyEq u (.int 0) || pyEq u (.str "0") || pyEq u (.str "False") || pyEq u (.bool false)

/-- One dimension ratio of `scale`: `1.0` for `"None"`, `p/100` for a
percentage, otherwise `float(s)/dim`.  (`dim` is a positive pixel count in
every reachable call; `ℚ` division by zero would yield `0` where Python
raises, a case no claim touches.) -/
def scaleFrac (dim : ℤ) (s : String) : Option ℚ :=
  if s = "None" then some 1
  else if s.data.getLast? = some '%' then
    (pyFloat (String.mk s.data.dropLast)).map (fun p => p / 100)
  else (pyFloat s).map (fun v => v / (dim : ℚ))

/-- Source `scale(i, w, h, upscale, inside)`. -/
def scale (i : PImage) (w h : String) (upscale : PyVal) (inside : Bool) : Option PImage :=
  match scaleFrac i.width w, scaleFrac i.height h with
  | some rw, some rh =>
    let s0 := if inside then min rw rh else max rw rh
    let s := if isFalsyUpscale upscale then min s0 1 else s0
    some ((modeCoerce i).resizeIm (pyInt (s * i.width)) (pyInt (s * i.height)) "LANCZOS")
  | _, _ => none

/-- Source `scale_in = functools.partial(scale, inside=True)`. -/
def scale_in (i : PImage) (w h : String) (upscale : PyVal) : Option PImage :=
  scale i w h upscale true

/-- Source `scale_out = functools.partial(scale, inside=False)`. -/
def scale_out (i : PImage) (w h : String) (upscale : PyVal) : Option PImage :=
  scale i w h upscale false

/-- Source `rotate(i, degrees)`. -/
def rotate (i : PImage) (degrees : String) : Option PImage :=
  (pyIntStr degrees).map (fun d => (modeCoerce i).rotateIm d)

/-- Source `apply_filter(i, f)`. -/
def apply_filter (i : PImage) (f : String) : PImage := (modeCoerce i).filterIm f

/-- Dispatch of one textual operation descriptor, as
`basic_ops[elems[0]](i, *elems[1:])` after `step.split(" ")`.  A missing
registry key or a wrong argument count is an uncaught Python exception,
modelled by `none` at this level and re-raised by the job runner. -/
def applyOp (i : PImage) (step : String) : Option PImage :=
  match splitOnSpace step with
  | ["crop", a, b, c, d] => crop i a b c d
  | ["resize", w, h] => resize i w h
  | ["rotate", d] => rotate i d
  | ["scale_in", w, h, u] => scale_in i w h (.str u)
  | ["scale_out", w, h, u] => scale_out i w h (.str u)
  | ["flip_horizontal"] => some (i.transposeIm "FLIP_LEFT_RIGHT")
  | ["flip_vertical"] => some (i.transposeIm "FLIP_TOP_BOTTOM")
  | ["grayscale"] => some (i.convertIm "L")
  | ["blur"] => some (apply_filter i "BLUR")
  | ["contour"] => some (apply_filter i "CONTOUR")
  | ["detail"] => some (apply_filter i "DETAIL")
  | ["edge_enhance"] => some (apply_filter i "EDGE_ENHANCE")
  | ["edge_enhance_more"] => some (apply_filter i "EDGE_ENHANCE_MORE")
  | ["emboss"] => some (apply_filter i "EMBOSS")
  | ["find_edges"] => some (apply_filter i "FIND_EDGES")
  | ["smooth"] => some (apply_filter i "SMOOTH")
  | ["smooth_more"] => some (apply_filter i "SMOOTH_MORE")
  | ["sharpen"] => some (apply_filter i "SHARPEN")
  | _ => none

/-- The `for step in image[2]` loop of `process_image`, on textual steps. -/
def applyOps (ops : List String) (i : PImage) : Option PImage :=
  match ops with
  | [] => some i
  | step :: rest =>
    match applyOp i step with
    | some i2 => applyOps rest i2
    | none => none

/-! ## Filesystem, build cache and job execution -/

/-- Metadata of one file: its mtime, and its decoded image if PIL can
identify it (`none` models an existing but undecodable file). -/
structure FileInfo where
  mtime : ℤ
  image : Option PImage
deriving DecidableEq, Repr

/-- The filesystem: a map from (decoded) path strings to file metadata. -/
def FS := String → Option FileInfo

/-- A queued build job `(source, destination, ops)`, with the URL-encoded
paths exactly as the resolver produced them. -/
structure Job where
  src : String
  dst : String
  ops : List String
deriving DecidableEq, Repr

/-- Python exceptions the job pipeline can raise. -/
inductive PyErr where
  | fileNotFound (p : String)
  | opError
deriving DecidableEq, Repr

/-- A generated-content record of `settings["static_content"]` (external
pelican data consulted by `compute_paths`). -/
structure ContentRec where
  save_as : String
  source_path : String
  output_path : String
deriving DecidableEq, Repr

/-- A derivative's `default` entry in a responsive-image spec: a string
label, a literal op list, or any other Python value (which falls through
both `isinstance` tests in `build_srcset`). -/
inductive RespDefault where
  | label (s : String)
  | ops (l : List String)
  | bad
deriving DecidableEq, Repr

/-- A `responsive-image` derivative specification. -/
structure ResponsiveSpec where
  srcset : List (String × List String)
  default : RespDefault
  sizes : Option String := none
deriving DecidableEq, Repr

/-- The second component of a picture spec's `default` tuple: a label, a
literal op list, or another value (a `RuntimeError` in the source). -/
inductive PicDefault where
  | label (s : String)
  | ops (l : List String)
  | bad
deriving DecidableEq, Repr

/-- One entry of a picture spec's `sources` list. -/
structure SourceSpec where
  name : String
  media : Option String := none
  sizes : Option String := none
  srcset : List (String × List String)
deriving DecidableEq, Repr

/-- A `picture` derivative specification (`default` can be `None`). -/
structure PictureSpec where
  sources : List SourceSpec
  default : Option (String × PicDefault)
deriving DecidableEq, Repr

/-- A derivative specification as stored under `IMAGE_PROCESS`: a bare op
list, or a dict with a `type` discriminant; the last three constructors
model a dict without `type`, a dict with an unrecognized `type` (which the
dispatch chain silently ignores), and a value that is neither list nor
dict. -/
inductive DerivSpec where
  | list (ops : List String)
  | image (ops : List String)
  | responsive (r : ResponsiveSpec)
  | picture (p : PictureSpec)
  | dictNoType
  | unknownType (t : String)
  | badShape
deriving DecidableEq, Repr

/-- The settings the embedded core reads, after `set_default_settings`. -/
structure Config where
  image_process : List (String × DerivSpec)
  process_dir : String := "derivatives"
  force : Bool := false
  add_class : Bool := true
  classPfx : String := "image-process-"
  static_content : List ContentRec := []
  siteurl : Option String := none
  path : String := ""
  output_path : String := ""

/-- The build-cache gate of `process_image`, with Python's short-circuit
`or`: `force or not exists(dst) or getmtime(src) > getmtime(dst)`.
`os.path.getmtime` on a missing path raises `FileNotFoundError`. -/
def shouldBuild (force : Bool) (fs : FS) (src dst : String) : Except PyErr Bool :=
  if force then .ok true
  else
    match fs dst with
    | none => .ok true
    | some di =>
      match fs src with
      | none => .error (.fileNotFound src)
      | some si => .ok (decide (si.mtime > di.mtime))

/-- Source `process_image(image, settings)` against filesystem `fs` with
write clock `now`.  Returns the new filesystem and whether an image write
happened.  The `unquote` of both paths, the gate, the
caught-and-abandoned open failures, the op chain (whose failures are
uncaught exceptions), and the write are modelled; directory creation and
EXIF copying have no observable effect on this state. -/
def process_image (cfg : Config) (j : Job) (fs : FS) (now : ℤ) : Except PyErr (FS × Bool) :=
  let src := pyUnquote j.src
  let dst := pyUnquote j.dst
  match shouldBuild cfg.force fs src dst with
  | .error e => .error e
  | .ok false => .ok (fs, false)
  | .ok true =>
    match fs src with
    | none => .ok (fs, false)
    | some fi =>
      match fi.image with
      | none => .ok (fs, false)
      | some im =>
        match applyOps j.ops im with
        | none => .error .opError
        | some im2 => .ok (Function.update fs dst (some ⟨now, some im2⟩), true)

/-- Sequential execution of the queued jobs, counting image writes.  (In
the source each job is executed at its queueing point; since job execution
never feeds back into DOM processing, running the queue afterwards is an
equivalent factoring, and it is the one the repository's tests observe by
mocking `process_image`.) -/
def runJobs (cfg : Config) : List Job → FS → ℤ → Except PyErr (FS × ℕ)
  | [], fs, _ => .ok (fs, 0)
  | j :: js, fs, now =>
    match process_image cfg j fs now with
    | .error e => .error e
    | .ok (fs2, w) =>
      match runJobs cfg js fs2 now with
      | .error e => .error e
      | .ok (fs3, n) => .ok (fs3, (if w then 1 else 0) + n)

/-! ## Elements, path calculator and derivative dispatch -/

/-- An `img` element: its class list and the attributes the plugin touches
(`none` models an absent attribute; an empty class list models a deleted
`class` attribute). -/
structure ImgTag where
  classes : List String
  src : String
  srcset : Option String := none
  sizes : Option String := none
deriving DecidableEq, Repr

/-- A `source` element found inside an existing `picture` parent. -/
structure SrcElem where
  classes : List String
  src : String
  media : Option String := none
  sizes : Option String := none
deriving DecidableEq, Repr

/-- The immediate parent of a triggering `img`, as `img.find_parent()`
exposes it to the picture dispatch: a `div` (with its descendant images), a
`picture` (with its `source` children), or any other element. -/
inductive Parent where
  | div (imgs : List ImgTag)
  | picture (sources : List SrcElem)
  | other (name : String)
deriving DecidableEq, Repr

/-- The namedtuple `Path(base_url, source, base_path, filename)`. -/
structure Path where
  base_url : String
  source : String
  base_path : String
  filename : String
deriving DecidableEq, Repr

/-- Errors the derivative resolver raises (configuration errors and the
uncaught exceptions of the picture source loops). -/
inductive Err where
  | runtimeError (msg : String)
  | typeError (msg : String)
  | keyError
  | attributeError
deriving DecidableEq, Repr

/-- Source `compute_paths(img, settings, derivative)`, for pelican v4+
(`static_content`); `filenames` differs only in the settings key. -/
def compute_paths (cfg : Config) (imgSrc : String) (derivative : String) : Path :=
  let img_src_path := pyUnquote (lstripSlash (urlparsePath imgSrc))
  let filename := (pathSplit img_src_path).2
  let derivative_path := join2 cfg.process_dir derivative
  let base_url := join2 (posixDirname imgSrc) (pyQuote derivative_path)
  match cfg.static_content.find? (fun c => c.save_as != "" && pyEndsWith img_src_path c.save_as) with
  | some c =>
    ⟨base_url, c.source_path,
     join4 c.output_path (posixDirname c.save_as) cfg.process_dir derivative, filename⟩
  | none =>
    let site_url_path : Option String :=
      cfg.siteurl.map (fun su => pyUnquote (strDrop (urlparsePath su) 1))
    let src_path :=
      match site_url_path with
      | some sp => if sp = "" then lstripSlash img_src_path
                   else lstripSlash (afterFirst img_src_path sp)
      | none => lstripSlash img_src_path
    ⟨base_url, join2 cfg.path src_path,
     join3 cfg.output_path (posixDirname src_path) derivative_path, filename⟩

/-- Source `process_img_tag`: rewrite `src` and queue the single job. -/
def process_img_tag (cfg : Config) (img : ImgTag) (derivative : String) (ops : List String) :
    ImgTag × Job :=
  let path := compute_paths cfg img.src derivative
  ({ img with src := join2 path.base_url path.filename },
   ⟨path.source, join2 path.base_path path.filename, ops⟩)

/-- Source `format_srcset_element`: quote the path if it contains a space
or comma, then append the condition label. -/
def format_srcset_element (path cond : String) : String :=
  (if strContains path ' ' || strContains path ',' then pyQuote path else path) ++ " " ++ cond

/-- Source `build_srcset` after its `compute_paths` call: resolve
`default` (an unresolvable string label is reported via `logger.error` and
processing continues), rewrite `src` and `sizes`, then walk the declared
`srcset` entries in order, accumulating attribute entries and jobs.
Returns the rewritten element, the queued jobs in queueing order, and the
error-log messages emitted. -/
def build_srcset_core (path : Path) (r : ResponsiveSpec) (img : ImgTag) :
    ImgTag × List Job × List String :=
  let dflt :=
    match r.default with
    | .label s =>
      (s, ([] : List Job),
       if (r.srcset.map Prod.fst).contains s then ([] : List String)
       else ["srcset does not define default " ++ s])
    | .ops l => ("default", [⟨path.source, join3 path.base_path "default" path.filename, l⟩], [])
    | .bad => ("", [], [])
  let img1 := { img with src := join3 path.base_url dflt.1 path.filename }
  let img2 :=
    match r.sizes with
    | some sz => { img1 with sizes := some sz }
    | none => img1
  let step := r.srcset.foldl
    (fun (acc : List String × List Job) src =>
      (acc.1 ++ [format_srcset_element (join3 path.base_url src.1 path.filename) src.1],
       acc.2 ++ [⟨path.source, join3 path.base_path src.1 path.filename, src.2⟩]))
    ([], [])
  let img3 := if step.1.length > 0 then { img2 with srcset := some (String.intercalate ", " step.1) } else img2
  (img3, dflt.2.1 ++ step.2, dflt.2.2)

/-- Source `build_srcset(img, settings, derivative)`. -/
def build_srcset (cfg : Config) (img : ImgTag) (derivative : String) (r : ResponsiveSpec) :
    ImgTag × List Job × List String :=
  build_srcset_core (compute_paths cfg img.src derivative) r img

/-- A source record of the picture loops after URL resolution: the spec
entry, its resolved URL and the derived paths, plus the `media`/`sizes`
attributes its output `source` element will carry. -/
structure RSource where
  spec : SourceSpec
  url : String
  filename : String
  base_url : String
  base_path : String
  outMedia : Option String
  outSizes : Option String
deriving DecidableEq, Repr

/-- A synthesized or rewritten `source` element in the output picture. -/
structure OutSource where
  media : Option String := none
  sizes : Option String := none
  srcset : Option String := none
deriving DecidableEq, Repr

/-- Result of the picture dispatch of one triggering element. -/
structure PicResult where
  img : ImgTag
  sources : List OutSource
  jobs : List Job
  remaining : List ImgTag
deriving DecidableEq, Repr

/-- Remove the first list element satisfying the predicate, returning it
and the remainder. -/
def extractFirst (p : α → Bool) : List α → Option (α × List α)
  | [] => none
  | x :: rest =>
    if p x then some (x, rest)
    else
      match extractFirst p rest with
      | some (y, rest2) => some (y, x :: rest2)
      | none => none

/-- URL lookup for one source of the `div` picture case: the `"default"`
source takes the triggering element's URL; other sources take the first
descendant `img` of the `div` whose class list contains the source name
and `"image-process"` (that candidate is decomposed). -/
def divFindSource (imgSrc : String) (divImgs : List ImgTag) (s : SourceSpec) :
    Option (String × List ImgTag) :=
  if s.name = "default" then some (imgSrc, divImgs)
  else
    match extractFirst
        (fun c => c.classes.contains s.name && c.classes.contains "image-process") divImgs with
    | some (cand, remaining) => some (cand.src, remaining)
    | none => none

/-- The source-resolution loop of `convert_div_to_picture_tag`.  A source
with no matching candidate leaves `s["url"]` unset, a `KeyError` at
`os.path.split`. -/
def resolveDivSources (cfg : Config) (derivative : String) (imgSrc : String) :
    List ImgTag → List SourceSpec → Except Err (List RSource × List ImgTag)
  | divImgs, [] => .ok ([], divImgs)
  | divImgs, s :: rest =>
    match divFindSource imgSrc divImgs s with
    | none => .error .keyError
    | some (url, divImgs2) =>
      let url_path := (pathSplit url).1
      let filename := (pathSplit url).2
      let base_url := join3 url_path cfg.process_dir derivative
      let base_path := join2 cfg.output_path (strDrop base_url 1)
      match resolveDivSources cfg derivative imgSrc divImgs2 rest with
      | .error e => .error e
      | .ok (rs, remaining) =>
        .ok (⟨s, url, filename, base_url, base_path, s.media, s.sizes⟩ :: rs, remaining)

/-- URL and output-attribute lookup for one source of the
existing-`picture` case: the `"default"` source becomes a new `source`
element with the spec's `media`/`sizes`; other sources extract the first
`source` child of the `picture` whose class list contains the name (its
`src` and `class` attributes are deleted, other attributes survive). -/
def picFindSource (imgSrc : String) (groupSources : List SrcElem) (s : SourceSpec) :
    Option (String × Option String × Option String × List SrcElem) :=
  if s.name = "default" then some (imgSrc, s.media, s.sizes, groupSources)
  else
    match extractFirst (fun e => e.classes.contains s.name) groupSources with
    | some (e, remaining) => some (e.src, e.media, e.sizes, remaining)
    | none => none

/-- The source-resolution loop of `process_picture`, raising
`AttributeError` when `find` returns `None`. -/
def resolvePicSources (cfg : Config) (derivative : String) (imgSrc : String) :
    List SrcElem → List SourceSpec → Except Err (List RSource)
  | _, [] => .ok []
  | groupSources, s :: rest =>
    match picFindSource imgSrc groupSources s with
    | none => .error .attributeError
    | some (url, m, sz, groupSources2) =>
      let url_path := (pathSplit url).1
      let filename := (pathSplit url).2
      let base_url := join3 url_path cfg.process_dir derivative
      let base_path := join2 cfg.output_path (strDrop base_url 1)
      match resolvePicSources cfg derivative imgSrc groupSources2 rest with
      | .error e => .error e
      | .ok rs => .ok (⟨s, url, filename, base_url, base_path, m, sz⟩ :: rs)

/-- The shared `default` handling of both picture dispatchers (the two
code blocks are verbatim-identical up to `posixpath.join` versus
`os.path.join`, which coincide on posix): look up the named source —
`RuntimeError` when absent — then either point `src` at an existing
labelled variant, or queue the default job and point `src` at the
synthetic `"default"` variant; any other value is a `RuntimeError`. -/
def pictureDefault (cfg : Config) (dflt : Option (String × PicDefault)) (rs : List RSource)
    (img : ImgTag) : Except Err (ImgTag × List Job) :=
  match dflt with
  | none => .ok (img, [])
  | some (dname, dval) =>
    match rs.find? (fun s => s.spec.name == dname) with
    | none =>
      .error (.runtimeError ("No source matching " ++ dname ++ ", referenced in default setting."))
    | some ds =>
      match dval with
      | .label item =>
        .ok ({ img with src := join4 ds.base_url dname item ds.filename }, [])
      | .ops l =>
        .ok ({ img with src := join4 ds.base_url dname "default" ds.filename },
             [⟨join2 cfg.path (strDrop ds.url 1), join4 ds.base_path dname "default" ds.filename, l⟩])
      | .bad =>
        .error (.runtimeError
          "Unexpected type for the second value of tuple default; expected string or list.")

/-- The `<source>`-building loop of `convert_div_to_picture_tag`: one
output element per source (appended even when its srcset is empty), one
job per srcset entry, in declaration order. -/
def divAssemble (cfg : Config) (rs : List RSource) : List OutSource × List Job :=
  rs.foldl
    (fun (acc : List OutSource × List Job) s =>
      let entries := s.spec.srcset.map
        (fun x => format_srcset_element (join4 s.base_url s.spec.name x.1 s.filename) x.1)
      let jobs : List Job := s.spec.srcset.map
        (fun x => ⟨join2 cfg.path (strDrop s.url 1),
                   join4 s.base_path s.spec.name x.1 s.filename, x.2⟩)
      (acc.1 ++ [{ media := s.outMedia, sizes := s.outSizes,
                   srcset := if entries.length > 0
                             then some (String.intercalate ", " entries) else none }],
       acc.2 ++ jobs))
    ([], [])

/-- The `<source>`-reinsertion loop of `process_picture`: an element is
re-inserted before the triggering `img` only when its srcset is
non-empty. -/
def picAssemble (cfg : Config) (rs : List RSource) : List OutSource × List Job :=
  rs.foldl
    (fun (acc : List OutSource × List Job) s =>
      let entries := s.spec.srcset.map
        (fun x => format_srcset_element (join4 s.base_url s.spec.name x.1 s.filename) x.1)
      let jobs : List Job := s.spec.srcset.map
        (fun x => ⟨join2 cfg.path (strDrop s.url 1),
                   join4 s.base_path s.spec.name x.1 s.filename, x.2⟩)
      (acc.1 ++ (if entries.length > 0
                 then [{ media := s.outMedia, sizes := s.outSizes,
                         srcset := some (String.intercalate ", " entries) }]
                 else ([] : List OutSource)),
       acc.2 ++ jobs))
    ([], [])

/-- Source `convert_div_to_picture_tag`: resolve sources from the `div`,
apply the `default` handling (its job queued first), then build the new
`picture` wrapper.  `remaining` is the div's surviving images. -/
def convert_div_to_picture_tag (cfg : Config) (img : ImgTag) (divImgs : List ImgTag)
    (derivative : String) (p : PictureSpec) : Except Err PicResult :=
  match resolveDivSources cfg derivative img.src divImgs p.sources with
  | .error e => .error e
  | .ok (rs, remaining) =>
    match pictureDefault cfg p.default rs img with
    | .error e => .error e
    | .ok (img2, djobs) =>
      let asm := divAssemble cfg rs
      .ok ⟨img2, asm.1, djobs ++ asm.2, remaining⟩

/-- Source `process_picture`: resolve sources from the existing `picture`,
apply the `default` handling (its job queued first), then repopulate the
`source` elements. -/
def process_picture (cfg : Config) (img : ImgTag) (groupSources : List SrcElem)
    (derivative : String) (p : PictureSpec) : Except Err PicResult :=
  match resolvePicSources cfg derivative img.src groupSources p.sources with
  | .error e => .error e
  | .ok rs =>
    match pictureDefault cfg p.default rs img with
    | .error e => .error e
    | .ok (img2, djobs) =>
      let asm := picAssemble cfg rs
      .ok ⟨img2, asm.1, djobs ++ asm.2, []⟩

/-- The class-attribute rewrite performed before dispatch: with
`IMAGE_PROCESS_ADD_CLASS` off the marker class is removed; with a
non-default `IMAGE_PROCESS_CLASS_PREFIX` it is replaced by the prefixed
derivative name; otherwise the class list is untouched. -/
def rewriteClasses (cfg : Config) (classes : List String) (c derivative : String) : List String :=
  if !cfg.add_class then classes.erase c
  else if cfg.classPfx ≠ "image-process-" then classes.erase c ++ [cfg.classPfx ++ derivative]
  else classes

/-- Dictionary lookup in `IMAGE_PROCESS`. -/
def lookupDeriv (cfg : Config) (derivative : String) : Option DerivSpec :=
  (cfg.image_process.find? (fun e => e.1 == derivative)).map (fun e => e.2)

/-- Outcome of processing one triggering element: the rewritten element,
the jobs queued for it in order, the error-log messages emitted, and the
synthesized (or repopulated) picture `source` elements, if any. -/
structure ElemResult where
  img : ImgTag
  jobs : List Job
  logs : List String
  picture : Option (List OutSource)
deriving DecidableEq, Repr

/-- The body of the `for img in soup.find_all(...)` loop of
`harvest_images_in_fragment` for one element: the element is selected when
some class matches the marker regex; the first class with the
`image-process-` literal prefix names the derivative (none → `continue`);
the class rewrite precedes dispatch; dispatch then branches on the
looked-up spec exactly as the `if`/`elif` chain does. -/
def processElement (cfg : Config) (img : ImgTag) (parent : Parent) : Except Err ElemResult :=
  if !(img.classes.any markerSearch) then .ok ⟨img, [], [], none⟩
  else
    match img.classes.find? (fun c => pyStartsWith c "image-process-") with
    | none => .ok ⟨img, [], [], none⟩
    | some c =>
      let derivative := strDrop c 14
      let img := { img with classes := rewriteClasses cfg img.classes c derivative }
      match lookupDeriv cfg derivative with
      | none => .error (.runtimeError ("Derivative " ++ derivative ++ " undefined."))
      | some (.list ops) =>
        let r := process_img_tag cfg img derivative ops
        .ok ⟨r.1, [r.2], [], none⟩
      | some .badShape =>
        .error (.typeError ("Derivative " ++ derivative ++ " definition not handled"))
      | some .dictNoType => .error (.runtimeError ("type is mandatory for " ++ derivative))
      | some (.image ops) =>
        let r := process_img_tag cfg img derivative ops
        .ok ⟨r.1, [r.2], [], none⟩
      | some (.responsive r) =>
        if img.srcset = none then
          let b := build_srcset cfg img derivative r
          .ok ⟨b.1, b.2.1, b.2.2, none⟩
        else .ok ⟨img, [], [], none⟩
      | some (.picture p) =>
        match parent with
        | .div imgs =>
          match convert_div_to_picture_tag cfg img imgs derivative p with
          | .error e => .error e
          | .ok r => .ok ⟨r.img, r.jobs, [], some r.sources⟩
        | .picture srcs =>
          match process_picture cfg img srcs derivative p with
          | .error e => .error e
          | .ok r => .ok ⟨r.img, r.jobs, [], some r.sources⟩
        | .other _ => .ok ⟨img, [], [], none⟩
      | some (.unknownType _) => .ok ⟨img, [], [], none⟩

/-- Processing of a whole fragment, modelled as the list of triggering
elements with their parent contexts; results and queued jobs accumulate in
document order.  A configuration error aborts the fragment. -/
def processFragment (cfg : Config) : List (ImgTag × Parent) → Except Err (List ElemResult × List Job)
  | [] => .ok ([], [])
  | (img, par) :: rest =>
    match processElement cfg img par with
    | .error e => .error e
    | .ok r =>
      match processFragment cfg rest with
      | .error e => .error e
      | .ok (rs, jobs) => .ok (r :: rs, r.jobs ++ jobs)

/-! ## Spec-side comparison definitions and concrete instances -/

/-- Crop as claim C2 words it (for comparison with `crop`): parameters in
the order top, left, right, bottom, so the first and fourth resolve
against the height and the second and third against the width. -/
def cropClaimed (i : PImage) (p1 p2 p3 p4 : String) : Option PImage :=
  match resolveCoord i.height p1, resolveCoord i.width p2,
        resolveCoord i.width p3, resolveCoord i.height p4 with
  | some t, some l, some r, some b => some (i.cropIm (pyInt l) (pyInt t) (pyInt r) (pyInt b))
  | _, _, _, _ => none

/-- Crop as the amended claim words it: parameters in the order left, top,
right, bottom, the first and third resolved against the width and the
second and fourth against the height, truncated, cropped as the box
`(left, top, right, bottom)`. -/
def cropAmended (i : PImage) (p1 p2 p3 p4 : String) : Option PImage :=
  match resolveCoord i.width p1, resolveCoord i.height p2,
        resolveCoord i.width p3, resolveCoord i.height p4 with
  | some l, some t, some r, some b => some (i.cropIm (pyInt l) (pyInt t) (pyInt r) (pyInt b))
  | _, _, _, _ => none

/-- The build-cache condition exactly as the spec states it: force is set,
or the destination does not exist, or the source's mtime exceeds the
destination's (given the source's metadata `si`). -/
def gateSpec (force : Bool) (fs : FS) (dst : String) (si : FileInfo) : Bool :=
  force || (fs dst).isNone || decide (si.mtime > (((fs dst).map FileInfo.mtime).getD 0))

/-- Whether element processing completed without a raised exception. -/
def isOkE (e : Except Err ElemResult) : Bool :=
  match e with
  | .ok _ => true
  | .error _ => false

/-- A small decodable test image. -/
def imW : PImage := ⟨10, 10, "RGB", []⟩

/-- Filesystem for the C1 witness: source older than destination. -/
def fsW1 : FS := fun p =>
  if p = "s.jpg" then some ⟨5, some imW⟩
  else if p = "d.jpg" then some ⟨9, some imW⟩
  else none

/-- Minimal settings with the force flag off. -/
def cfgMin : Config := { image_process := [] }

/-- Filesystem for the C3 failing input: the destination exists, the
source does not. -/
def fsC3 : FS := fun p => if p = "exists.jpg" then some ⟨3, none⟩ else none

/-- Responsive spec whose `default` label `"zz"` is not among its srcset
labels. -/
def specC4r : ResponsiveSpec := ⟨[("1x", ["scale_in 800 600 True"])], .label "zz", none⟩

/-- Settings for the C4 counterexample: a responsive-image derivative
whose `default` label `"zz"` is not among its srcset labels. -/
def cfgC4 : Config := { image_process := [("bad", .responsive specC4r)] }

/-- Triggering element for the C4 counterexample. -/
def imgC4 : ImgTag := ⟨["image-process-bad"], "/a/b.jpg", none, none⟩

/-- Settings for the C8 counterexample: a responsive derivative with
`IMAGE_PROCESS_ADD_CLASS` off. -/
def cfgC8 : Config :=
  { image_process := [("crisp", .responsive ⟨[("1x", ["scale_in 800 600 True"])], .label "1x", none⟩)],
    add_class := false }

/-- Element for the C8 counterexample: it carries the marker and already
has a `srcset` attribute. -/
def imgC8 : ImgTag := ⟨["image-process-crisp"], "/a/b.jpg", some "x 1x", none⟩

/-- A small well-formed responsive spec. -/
def specW8 : ResponsiveSpec := ⟨[("1x", ["scale_in 800 600 True"])], .label "1x", none⟩

/-- Default-settings configuration with one responsive derivative, used by
the C8 witness. -/
def cfgW8 : Config := { image_process := [("crisp", .responsive specW8)] }

/-- A small well-formed picture spec. -/
def specW10p : PictureSpec :=
  ⟨[⟨"default", none, none, [("1x", ["scale_in 800 600 True"])]⟩], some ("default", .label "1x")⟩

/-- Settings for the C10 witness: one picture derivative. -/
def cfgW10 : Config := { image_process := [("pict", .picture specW10p)] }

/-- Element for the C10 witness. -/
def imgW10 : ImgTag := ⟨["image-process-pict"], "/a/b.jpg", none, none⟩

/-- Settings for the C9 witness: a single bare-list derivative. -/
def cfgW9 : Config :=
  { image_process := [("thumb", .list [])], path := "content", output_path := "out" }

/-- Fragment for the C9 witness. -/
def fragW9 : List (ImgTag × Parent) :=
  [(⟨["image-process-thumb"], "/tmp/test.jpg", none, none⟩, .other "p")]

/-- First-pass result of the C9 witness fragment. -/
def w9pair : List ElemResult × List Job :=
  match processFragment cfgW9 fragW9 with
  | .ok p => p
  | .error _ => ([], [])

/-- Destination of the single C9 witness job. -/
def w9dst : String :=
  match w9pair.2 with
  | [j] => j.dst
  | _ => ""

/-- Initial filesystem of the C9 witness: every path but the job's
destination holds a decodable image with mtime 0. -/
def fsW9 : FS := fun p => if p = w9dst then none else some ⟨0, some imW⟩

/-- Filesystem after the first C9 pass. -/
def fsW9b : FS :=
  match runJobs cfgW9 w9pair.2 fsW9 5 with
  | .ok r => r.1
  | .error _ => fsW9

/-- Path record for the C7 witness. -/
def pathW7 : Path := ⟨"/tmp/derivs/crisp2", "content/tmp/test.jpg", "out/tmp/derivs/crisp2", "test.jpg"⟩

/-- Responsive spec for the C7 witness: a literal op-list default and two
declared srcset entries. -/
def specW7 : ResponsiveSpec :=
  ⟨[("1x", ["scale_in 800 600 True"]), ("2x", ["scale_in 1600 1200 True"])],
   .ops ["scale_in 400 300 True"], none⟩

/-- Picture spec for the C4 witness: its `default` names a source that
does not exist. -/
def specC4p : PictureSpec :=
  ⟨[⟨"default", none, none, [("1x", ["scale_in 800 600 True"])]⟩], some ("ghost", .label "1x")⟩

/-- Triggering element used by the C7 and C4 witnesses. -/
def imgW7 : ImgTag := ⟨["image-process-crisp2"], "/tmp/test.jpg", none, none⟩

/-- Resolved sources of `specC4p` against an empty `div`. -/
def c4resolvedDiv : List RSource × List ImgTag :=
  match resolveDivSources cfgMin "d" "/a/b.jpg" [] specC4p.sources with
  | .ok p => p
  | .error _ => ([], [])

/-- Resolved sources of `specC4p` against an empty `picture` group. -/
def c4resolvedPic : List RSource :=
  match resolvePicSources cfgMin "d" "/a/b.jpg" [] specC4p.sources with
  | .ok rs => rs
  | .error _ => []

unseal Rat.mul Rat.inv Rat.add Rat.sub

/-! ## Claim C1: the build-cache gate -/

/-- C1: for every build job, provided the source file has an mtime, the
cache gate of `process_image` builds exactly under the spec's condition
(`gateSpec`: force, or destination absent, or source newer); when the
condition is false the job is skipped with the filesystem unchanged and no
image write; and with the force flag the gate passes unconditionally,
regardless of any mtime. -/
theorem c1_cache_gate (cfg : Config) (fs : FS) (j : Job) (now : ℤ) (si : FileInfo)
    (hsrc : fs (pyUnquote j.src) = some si) :
    shouldBuild cfg.force fs (pyUnquote j.src) (pyUnquote j.dst)
      = .ok (gateSpec cfg.force fs (pyUnquote j.dst) si)
    ∧ (gateSpec cfg.force fs (pyUnquote j.dst) si = false →
        process_image cfg j fs now = .ok (fs, false))
    ∧ (∀ (fs2 : FS) (s d : String), shouldBuild true fs2 s d = .ok true) := by
  have hgate : shouldBuild cfg.force fs (pyUnquote j.src) (pyUnquote j.dst)
      = .ok (gateSpec cfg.force fs (pyUnquote j.dst) si) := by
    unfold shouldBuild gateSpec
    cases hf : cfg.force with
    | true => simp
    | false =>
      cases hd : fs (pyUnquote j.dst) with
      | none => simp
      | some di => simp [hsrc]
  refine ⟨hgate, ?_, fun fs2 s d => rfl⟩
  intro hfalse
  simp only [process_image]
  rw [hgate, hfalse]

/-- C1 witness: with force off, source mtime 5 and destination mtime 9,
the gate yields false and the job is skipped with no write. -/
theorem c1_cache_gate_witness :
    shouldBuild false fsW1 "s.jpg" "d.jpg" = .ok false
    ∧ process_image cfgMin ⟨"s.jpg", "d.jpg", []⟩ fsW1 11 = .ok (fsW1, false) := by
  have h := c1_cache_gate cfgMin fsW1 ⟨"s.jpg", "d.jpg", []⟩ 11 ⟨5, some imW⟩ (by decide)
  exact ⟨h.1, h.2.1 (by decide)⟩

/-! ## Claim C2: crop parameter order -/

/-- C2 counterexample: on a 100×200 image with parameters
`"10%" "30" "60" "50"`, `crop` does not interpret its parameters in the
order top, left, right, bottom claimed by the spec (it uses left, top,
right, bottom: the code crops to the box (10, 30, 60, 50), the claim
predicts (30, 20, 60, 50)). -/
theorem c2_crop_parameter_order_counterexample :
    crop ⟨100, 200, "RGB", []⟩ "10%" "30" "60" "50"
      ≠ cropClaimed ⟨100, 200, "RGB", []⟩ "10%" "30" "60" "50" := by decide

/-- C2 as amended: `crop` interprets its parameters in the order left,
top, right, bottom — a percentage in the first or third position is a
fraction of the image width, in the second or fourth a fraction of the
height — resolves them, truncates each value to an integer, and crops to
that bounding box. -/
theorem c2_crop_parameter_order (i : PImage) (p1 p2 p3 p4 : String) :
    crop i p1 p2 p3 p4 = cropAmended i p1 p2 p3 p4 := by
  unfold crop cropAmended convert_box
  cases h1 : resolveCoord i.width p1 <;> cases h2 : resolveCoord i.height p2 <;>
    cases h3 : resolveCoord i.width p3 <;> cases h4 : resolveCoord i.height p4 <;> rfl

/-! ## Claim C3: missing-source handling -/

/-- C3: the claim (and the spec) says a job whose source is missing is
always abandoned with a warning and no exception; but when the destination
exists, the force flag is off and the source is absent, the mtime
comparison of the cache gate raises an uncaught `FileNotFoundError`
before `try_open_image` is ever reached, so the exception propagates out
of the job.  This theorem evaluates the code at that failing input. -/
theorem c3_missing_source_with_existing_destination :
    process_image cfgMin ⟨"missing.jpg", "exists.jpg", []⟩ fsC3 7
      = .error (.fileNotFound "missing.jpg") := rfl

/-! ## Claim C5: scale_in and scale_out -/

/-- C5: with width ratio `rw` and height ratio `rh` resolved by
`scaleFrac` (`1` for `"None"`, `p/100` for a percentage, `v/dim`
otherwise), `scale_in` resizes by `min rw rh` and `scale_out` by
`max rw rh`, the factor is clamped to at most 1 exactly when `upscale` is
one of `0`, `"0"`, `"False"`, `False` under Python equality, and the
resulting dimensions are the factor times the original, truncated toward
zero (`pyInt`). -/
theorem c5_scale_semantics (i : PImage) (w h : String) (u : PyVal) (rw rh : ℚ)
    (hw : scaleFrac i.width w = some rw) (hh : scaleFrac i.height h = some rh) :
    (scale_in i w h u
       = some ((modeCoerce i).resizeIm
           (pyInt ((if isFalsyUpscale u then min (min rw rh) 1 else min rw rh) * i.width))
           (pyInt ((if isFalsyUpscale u then min (min rw rh) 1 else min rw rh) * i.height))
           "LANCZOS")
     ∧ scale_out i w h u
       = some ((modeCoerce i).resizeIm
           (pyInt ((if isFalsyUpscale u then min (max rw rh) 1 else max rw rh) * i.width))
           (pyInt ((if isFalsyUpscale u then min (max rw rh) 1 else max rw rh) * i.height))
           "LANCZOS"))
    ∧ (isFalsyUpscale u = true ↔ u = .int 0 ∨ u = .str "0" ∨ u = .str "False" ∨ u = .bool false)
    ∧ (∀ d : ℤ, scaleFrac d "None" = some 1)
    ∧ (∀ (d : ℤ) (p : String) (q : ℚ), pyFloat p = some q →
         scaleFrac d (p ++ "%") = some (q / 100))
    ∧ (∀ (d : ℤ) (s : String) (v : ℚ), pyFloat s = some v → s ≠ "None" →
         s.data.getLast? ≠ some '%' → scaleFrac d s = some (v / (d : ℚ))) := by
  refine ⟨⟨?_, ?_⟩, ?_, fun d => rfl, ?_, ?_⟩
  · unfold scale_in scale
    rw [hw, hh]
    rfl
  · unfold scale_out scale
    rw [hw, hh]
    rfl
  · cases u with
    | int n =>
      simp [isFalsyUpscale, pyEq]
    | str s =>
      simp [isFalsyUpscale, pyEq]
    | bool b => cases b <;> simp [isFalsyUpscale, pyEq]
  · intro d p q hq
    have hne : (p ++ "%") ≠ "None" := by
      intro hcontra
      have hlast : (p.data ++ ['%']).getLast? = ("None" : String).data.getLast? := by
        rw [show p.data ++ ['%'] = (p ++ "%").data from rfl, hcontra]
      rw [List.getLast?_concat] at hlast
      exact absurd hlast (by decide)
    unfold scaleFrac
    rw [if_neg hne]
    rw [show (p ++ "%").data = p.data ++ ['%'] from rfl, List.getLast?_concat]
    rw [if_pos rfl, List.dropLast_concat]
    rw [show String.mk p.data = p from rfl, hq]
    rfl
  · intro d s v hv hne hnp
    unfold scaleFrac
    rw [if_neg hne, if_neg hnp, hv]
    rfl

/-- C5 witness: a 1000×500 image scaled with `w="200"`, `h="50%"` and
`upscale="False"`: `scale_in` applies factor 1/5 giving 200×100,
`scale_out` applies factor 1/2 giving 500×250. -/
theorem c5_scale_semantics_witness :
    scale_in ⟨1000, 500, "RGB", []⟩ "200" "50%" (.str "False")
      = some ((modeCoerce ⟨1000, 500, "RGB", []⟩).resizeIm 200 100 "LANCZOS")
    ∧ scale_out ⟨1000, 500, "RGB", []⟩ "200" "50%" (.str "False")
      = some ((modeCoerce ⟨1000, 500, "RGB", []⟩).resizeIm 500 250 "LANCZOS") := by
  have h := c5_scale_semantics ⟨1000, 500, "RGB", []⟩ "200" "50%" (.str "False")
    (1/5) (1/2) (by decide) (by decide)
  exact ⟨h.1.1, h.1.2⟩

/-! ## Claim C6: the coordinate resolver -/

/-- C6: for a percentage string built from a numeric literal the resolver
yields `dim × p / 100`; for a plain numeric string it yields the literal
value; for a non-percentage string that is not numeric it fails. -/
theorem c6_coordinate_resolver (d : ℤ) (p s t : String) (q v : ℚ)
    (hp : pyFloat p = some q)
    (hs : pyFloat s = some v) (hsn : s.data.getLast? ≠ some '%')
    (ht : pyFloat t = none) (htn : t.data.getLast? ≠ some '%') :
    resolveCoord d (p ++ "%") = some ((d : ℚ) * q / 100)
    ∧ resolveCoord d s = some v
    ∧ resolveCoord d t = none := by
  refine ⟨?_, ?_, ?_⟩
  · unfold resolveCoord
    rw [show (p ++ "%").data = p.data ++ ['%'] from rfl, List.getLast?_concat]
    rw [if_pos rfl, List.dropLast_concat]
    rw [show String.mk p.data = p from rfl, hp]
    rfl
  · unfold resolveCoord
    rw [if_neg hsn, hs]
  · unfold resolveCoord
    rw [if_neg htn, ht]

/-- C6 witness: `"12.5%"` of dimension 40 resolves to 5, `"33"` resolves
to 33, `"abc"` fails. -/
theorem c6_coordinate_resolver_witness :
    resolveCoord 40 "12.5%" = some 5
    ∧ resolveCoord 40 "33" = some 33
    ∧ resolveCoord 40 "abc" = none := by
  have h := c6_coordinate_resolver 40 "12.5" "33" "abc" (25/2) 33
    (by decide) (by decide) (by decide) (by decide) (by decide)
  exact ⟨h.1, h.2.1, h.2.2⟩

/-! ## Claim C7: responsive-image op-list default ordering -/

/-- Closed form of the srcset accumulation loop of `build_srcset`. -/
theorem build_srcset_foldl (path : Path) (l : List (String × List String))
    (a : List String) (b : List Job) :
    l.foldl
      (fun (acc : List String × List Job) src =>
        (acc.1 ++ [format_srcset_element (join3 path.base_url src.1 path.filename) src.1],
         acc.2 ++ [⟨path.source, join3 path.base_path src.1 path.filename, src.2⟩])) (a, b)
    = (a ++ l.map (fun src => format_srcset_element (join3 path.base_url src.1 path.filename) src.1),
       b ++ l.map (fun src =>
         (⟨path.source, join3 path.base_path src.1 path.filename, src.2⟩ : Job))) := by
  induction l generalizing a b with
  | nil => simp
  | cons x xs ih =>
    simp only [List.foldl_cons, List.map_cons]
    rw [ih]
    simp

/-- C7: when a responsive-image derivative's `default` is a literal op
list, its job is queued strictly first, the declared srcset entries' jobs
follow in declaration order, the element's `src` points into the
`default` subdirectory, and the `srcset` attribute lists exactly the
declared entries (the synthetic default is not added). -/
theorem c7_responsive_default_first (path : Path) (r : ResponsiveSpec) (img : ImgTag)
    (dops : List String) (hd : r.default = .ops dops) :
    (build_srcset_core path r img).2.1
      = ⟨path.source, join3 path.base_path "default" path.filename, dops⟩
        :: r.srcset.map (fun src =>
             (⟨path.source, join3 path.base_path src.1 path.filename, src.2⟩ : Job))
    ∧ (build_srcset_core path r img).1.src = join3 path.base_url "default" path.filename
    ∧ (r.srcset ≠ [] →
        (build_srcset_core path r img).1.srcset
          = some (String.intercalate ", " (r.srcset.map (fun src =>
              format_srcset_element (join3 path.base_url src.1 path.filename) src.1)))) := by
  refine ⟨?_, ?_, ?_⟩
  · simp only [build_srcset_core, hd, build_srcset_foldl]
    simp
  · cases hsz : r.sizes <;>
      simp only [build_srcset_core, hd, hsz, build_srcset_foldl] <;>
      by_cases hr : r.srcset = [] <;> simp [hr, apply_ite ImgTag.src]
  · intro hne
    have hpos : 0 < r.srcset.length := List.length_pos.mpr hne
    cases hsz : r.sizes <;>
      simp only [build_srcset_core, hd, hsz, build_srcset_foldl] <;>
      simp [hpos]

/-- C7 witness: the `crisp2` configuration of the repository's tests —
the synthetic default job precedes the `1x` and `2x` jobs, `src` points
into the `default` subdirectory, and `srcset` lists only the declared
entries. -/
theorem c7_responsive_default_first_witness :
    (build_srcset_core pathW7 specW7 imgW7).2.1
      = ⟨pathW7.source, join3 pathW7.base_path "default" pathW7.filename, ["scale_in 400 300 True"]⟩
        :: specW7.srcset.map (fun src =>
             (⟨pathW7.source, join3 pathW7.base_path src.1 pathW7.filename, src.2⟩ : Job))
    ∧ (build_srcset_core pathW7 specW7 imgW7).1.src
        = join3 pathW7.base_url "default" pathW7.filename
    ∧ (build_srcset_core pathW7 specW7 imgW7).1.srcset
        = some (String.intercalate ", " (specW7.srcset.map (fun src =>
            format_srcset_element (join3 pathW7.base_url src.1 pathW7.filename) src.1))) := by
  have h := c7_responsive_default_first pathW7 specW7 imgW7 ["scale_in 400 300 True"] rfl
  exact ⟨h.1, h.2.1, h.2.2 (by decide)⟩

/-! ## Claim C8: idempotence guard for responsive images -/

/-- C8 counterexample: with `IMAGE_PROCESS_ADD_CLASS` off, an element that
carries a responsive marker and already has a `srcset` attribute is
dispatched to the skip branch, yet its class attribute is still rewritten
(the marker class is removed before dispatch), so the element is not left
completely unchanged as the claim states. -/
theorem c8_counterexample :
    processElement cfgC8 imgC8 (.other "p")
      = .ok ⟨⟨[], "/a/b.jpg", some "x 1x", none⟩, [], [], none⟩
    ∧ (⟨[], "/a/b.jpg", some "x 1x", none⟩ : ImgTag) ≠ imgC8 :=
  ⟨rfl, by decide⟩

/-- C8 as amended: for an element carrying a responsive-image marker that
already has a `srcset` attribute, dispatch is skipped — no jobs are
queued, nothing is synthesized, no log is emitted, and `src`, `srcset`
and `sizes` are unchanged; only the marker-class rewrite preceding
dispatch may alter the class list, and under the default class settings
the element is completely unchanged. -/
theorem c8_srcset_guard (cfg : Config) (img : ImgTag) (parent : Parent) (c : String)
    (r : ResponsiveSpec) (ss : String)
    (hre : img.classes.any markerSearch = true)
    (hfind : img.classes.find? (fun s => pyStartsWith s "image-process-") = some c)
    (hlk : lookupDeriv cfg (strDrop c 14) = some (.responsive r))
    (hss : img.srcset = some ss) :
    processElement cfg img parent
      = .ok ⟨{ img with classes := rewriteClasses cfg img.classes c (strDrop c 14) }, [], [], none⟩
    ∧ (cfg.add_class = true → cfg.classPfx = "image-process-" →
        rewriteClasses cfg img.classes c (strDrop c 14) = img.classes) := by
  constructor
  · simp only [processElement, hre, hfind, hlk]
    simp [hss]
  · intro h1 h2
    unfold rewriteClasses
    rw [h1, h2]
    simp

/-- C8 witness: under default settings, the marked element with an
existing `srcset` passes through `processElement` entirely unchanged, with
no jobs. -/
theorem c8_srcset_guard_witness :
    processElement cfgW8 imgC8 (.other "p") = .ok ⟨imgC8, [], [], none⟩ := by
  have h := c8_srcset_guard cfgW8 imgC8 (.other "p") "image-process-crisp" specW8 "x 1x"
    (by decide) (by decide) (by decide) rfl
  exact h.1

/-! ## Claim C10: picture dispatch under a foreign parent -/

/-- C10: for an element carrying a picture-type derivative marker whose
immediate parent is neither a `div` nor a `picture`, dispatch is a silent
no-op: no jobs are queued, no picture structure is synthesized, no log is
emitted, and the element is returned with only the marker-class rewrite
applied (its `src`, `srcset` and `sizes` attributes unchanged). -/
theorem c10_picture_foreign_parent (cfg : Config) (img : ImgTag) (nm c : String) (p : PictureSpec)
    (hre : img.classes.any markerSearch = true)
    (hfind : img.classes.find? (fun s => pyStartsWith s "image-process-") = some c)
    (hlk : lookupDeriv cfg (strDrop c 14) = some (.picture p)) :
    processElement cfg img (.other nm)
      = .ok ⟨{ img with classes := rewriteClasses cfg img.classes c (strDrop c 14) }, [], [], none⟩ := by
  simp only [processElement, hre, hfind, hlk]
  simp

/-- C10 witness: a picture-marked element inside a `span` parent passes
through unchanged with no jobs and no synthesized sources. -/
theorem c10_picture_foreign_parent_witness :
    processElement cfgW10 imgW10 (.other "span") = .ok ⟨imgW10, [], [], none⟩ := by
  have h := c10_picture_foreign_parent cfgW10 imgW10 "span" "image-process-pict" specW10p
    (by decide) (by decide) (by decide)
  exact h

/-! ## Claim C4: unresolvable default references -/

/-- C4 counterexample: a responsive-image derivative whose `default` label
is not among its srcset labels is processed without any raised error (the
misconfiguration is only logged), contradicting the claim that processing
raises a fatal error in this case. -/
theorem c4_counterexample : isOkE (processElement cfgC4 imgC4 (.other "p")) = true := rfl

/-- Source resolution of the `div` picture case keeps each resolved
source's spec entry, so when no spec source carries the default name,
neither does any resolved source. -/
theorem resolveDivSources_no_dname (cfg : Config) (deriv src dname : String) :
    ∀ (specs : List SourceSpec) (imgs : List ImgTag) (rs : List RSource) (rem : List ImgTag),
      resolveDivSources cfg deriv src imgs specs = .ok (rs, rem) →
      (∀ sp ∈ specs, sp.name ≠ dname) →
      ∀ x ∈ rs, x.spec.name ≠ dname := by
  intro specs
  induction specs with
  | nil =>
    intro imgs rs rem h _ x hx
    simp only [resolveDivSources] at h
    obtain ⟨h1, -⟩ := Prod.mk.injEq .. ▸ Except.ok.inj h
    rw [← h1] at hx
    simp at hx
  | cons sp rest ih =>
    intro imgs rs rem h hn x hx
    simp only [resolveDivSources] at h
    split at h
    next heq => simp at h
    next url imgs2 heq =>
      split at h
      next e heq2 => simp at h
      next rs2 rem2 heq2 =>
        obtain ⟨h1, -⟩ := Prod.mk.injEq .. ▸ Except.ok.inj h
        rw [← h1] at hx
        rcases List.mem_cons.mp hx with hx1 | hx2
        · rw [hx1]
          exact hn sp (List.mem_cons_self sp rest)
        · exact ih imgs2 rs2 rem2 heq2 (fun s2 hs => hn s2 (List.mem_cons_of_mem sp hs)) x hx2

/-- Source resolution of the existing-`picture` case keeps each resolved
source's spec entry, so when no spec source carries the default name,
neither does any resolved source. -/
theorem resolvePicSources_no_dname (cfg : Config) (deriv src dname : String) :
    ∀ (specs : List SourceSpec) (grp : List SrcElem) (rs : List RSource),
      resolvePicSources cfg deriv src grp specs = .ok rs →
      (∀ sp ∈ specs, sp.name ≠ dname) →
      ∀ x ∈ rs, x.spec.name ≠ dname := by
  intro specs
  induction specs with
  | nil =>
    intro grp rs h _ x hx
    simp only [resolvePicSources] at h
    rw [← Except.ok.inj h] at hx
    simp at hx
  | cons sp rest ih =>
    intro grp rs h hn x hx
    simp only [resolvePicSources] at h
    split at h
    next heq => simp at h
    next url m sz grp2 heq =>
      split at h
      next e heq2 => simp at h
      next rs2 heq2 =>
        rw [← Except.ok.inj h] at hx
        rcases List.mem_cons.mp hx with hx1 | hx2
        · rw [hx1]
          exact hn sp (List.mem_cons_self sp rest)
        · exact ih grp2 rs2 heq2 (fun s2 hs => hn s2 (List.mem_cons_of_mem sp hs)) x hx2

/-- When no resolved source carries the default's source name, the shared
default handling raises the `RuntimeError` of the source. -/
theorem pictureDefault_missing (cfg : Config) (dname : String) (dv : PicDefault)
    (rs : List RSource) (img : ImgTag)
    (hn : ∀ x ∈ rs, x.spec.name ≠ dname) :
    pictureDefault cfg (some (dname, dv)) rs img
      = .error (.runtimeError ("No source matching " ++ dname ++ ", referenced in default setting.")) := by
  have hfind : rs.find? (fun s => s.spec.name == dname) = none := by
    rw [List.find?_eq_none]
    intro x hx
    simpa using hn x hx
  simp only [pictureDefault]
  rw [hfind]

/-- C4 as amended: a `picture` derivative whose `default` names a source
not among its sources raises a fatal `RuntimeError` (in both the `div` and
the existing-`picture` dispatch); a `responsive-image` derivative whose
`default` label is not among its srcset labels does not raise — it emits
an error log and processing continues. -/
theorem c4_default_reference (path : Path) (r : ResponsiveSpec) (img img2 : ImgTag) (s : String)
    (cfg : Config) (divImgs : List ImgTag) (grpSrcs : List SrcElem)
    (deriv : String) (p : PictureSpec) (dname : String) (dv : PicDefault)
    (hd : r.default = .label s)
    (hns : (r.srcset.map Prod.fst).contains s = false)
    (hpd : p.default = some (dname, dv))
    (hnames : ∀ sp ∈ p.sources, sp.name ≠ dname) :
    (build_srcset_core path r img).2.2 ≠ []
    ∧ (∀ rs rem, resolveDivSources cfg deriv img2.src divImgs p.sources = .ok (rs, rem) →
        convert_div_to_picture_tag cfg img2 divImgs deriv p
          = .error (.runtimeError ("No source matching " ++ dname ++ ", referenced in default setting.")))
    ∧ (∀ rs, resolvePicSources cfg deriv img2.src grpSrcs p.sources = .ok rs →
        process_picture cfg img2 grpSrcs deriv p
          = .error (.runtimeError ("No source matching " ++ dname ++ ", referenced in default setting."))) := by
  refine ⟨?_, ?_, ?_⟩
  · simp only [build_srcset_core, hd, hns]
    simp
  · intro rs rem hres
    have hno := resolveDivSources_no_dname cfg deriv img2.src dname p.sources divImgs rs rem
      hres hnames
    have hmiss := pictureDefault_missing cfg dname dv rs img2 hno
    simp only [convert_div_to_picture_tag, hres, hpd, hmiss]
  · intro rs hres
    have hno := resolvePicSources_no_dname cfg deriv img2.src dname p.sources grpSrcs rs
      hres hnames
    have hmiss := pictureDefault_missing cfg dname dv rs img2 hno
    simp only [process_picture, hres, hpd, hmiss]

/-- C4 witness: the misconfigured responsive spec emits a log entry
without raising, and the picture spec whose default names the nonexistent
source `"ghost"` raises the `RuntimeError` in both dispatch paths. -/
theorem c4_default_reference_witness :
    (build_srcset_core pathW7 specC4r imgW7).2.2 ≠ []
    ∧ convert_div_to_picture_tag cfgMin imgC4 [] "d" specC4p
        = .error (.runtimeError "No source matching ghost, referenced in default setting.")
    ∧ process_picture cfgMin imgC4 [] "d" specC4p
        = .error (.runtimeError "No source matching ghost, referenced in default setting.") := by
  have h := c4_default_reference pathW7 specC4r imgW7 imgC4 "zz" cfgMin ([] : List ImgTag)
    ([] : List SrcElem) "d" specC4p "ghost" (.label "1x") rfl (by decide) rfl (by decide)
  exact ⟨h.1, h.2.1 c4resolvedDiv.1 c4resolvedDiv.2 rfl, h.2.2 c4resolvedPic rfl⟩

/-! ## Claim C9: cache idempotence of a second pass -/

/-- A successful `process_image` either leaves the filesystem unchanged
and reports no write, or reports a write and updates exactly the job's
destination with the current clock and a decoded image. -/
theorem process_image_cases (cfg : Config) (j : Job) (fs : FS) (now : ℤ) (fs2 : FS) (w : Bool)
    (h : process_image cfg j fs now = .ok (fs2, w)) :
    (w = false ∧ fs2 = fs)
    ∨ (w = true ∧ ∃ im, fs2 = Function.update fs (pyUnquote j.dst) (some ⟨now, some im⟩)) := by
  simp only [process_image] at h
  split at h
  · simp at h
  · obtain ⟨h1, h2⟩ := Prod.mk.injEq .. ▸ Except.ok.inj h
    exact .inl ⟨h2.symm, h1.symm⟩
  · split at h
    · obtain ⟨h1, h2⟩ := Prod.mk.injEq .. ▸ Except.ok.inj h
      exact .inl ⟨h2.symm, h1.symm⟩
    · split at h
      · obtain ⟨h1, h2⟩ := Prod.mk.injEq .. ▸ Except.ok.inj h
        exact .inl ⟨h2.symm, h1.symm⟩
      · split at h
        · simp at h
        · obtain ⟨h1, h2⟩ := Prod.mk.injEq .. ▸ Except.ok.inj h
          exact .inr ⟨h2.symm, _, h1.symm⟩

/-- A successful `process_image` never changes any path other than the
job's destination. -/
theorem process_image_preserves (cfg : Config) (j : Job) (fs : FS) (now : ℤ) (fs2 : FS) (w : Bool)
    (h : process_image cfg j fs now = .ok (fs2, w)) (p : String)
    (hp : p ≠ pyUnquote j.dst) : fs2 p = fs p := by
  rcases process_image_cases cfg j fs now fs2 w h with ⟨-, rfl⟩ | ⟨-, im, rfl⟩
  · rfl
  · exact Function.update_noteq hp _ _

/-- After a successful `process_image`, every path either kept its old
state or now holds a file written at the current clock. -/
theorem process_image_invA (cfg : Config) (j : Job) (fs : FS) (now : ℤ) (fs2 : FS) (w : Bool)
    (h : process_image cfg j fs now = .ok (fs2, w)) (p : String) :
    fs2 p = fs p ∨ ∃ im, fs2 p = some ⟨now, some im⟩ := by
  rcases process_image_cases cfg j fs now fs2 w h with ⟨-, rfl⟩ | ⟨-, im, rfl⟩
  · exact .inl rfl
  · by_cases hp : p = pyUnquote j.dst
    · subst hp
      exact .inr ⟨im, Function.update_same _ _ _⟩
    · exact .inl (Function.update_noteq hp _ _)

/-- Unfolding of a successful `runJobs` on a nonempty queue. -/
theorem runJobs_cons_ok (cfg : Config) (j : Job) (js : List Job) (fs : FS) (now : ℤ)
    (fs3 : FS) (n : ℕ) (h : runJobs cfg (j :: js) fs now = .ok (fs3, n)) :
    ∃ fs2 w n2, process_image cfg j fs now = .ok (fs2, w)
      ∧ runJobs cfg js fs2 now = .ok (fs3, n2) ∧ n = (if w then 1 else 0) + n2 := by
  simp only [runJobs] at h
  split at h
  · simp at h
  next fs2 w heq =>
    split at h
    · simp at h
    next fs4 n2 heq2 =>
      obtain ⟨h1, h2⟩ := Prod.mk.injEq .. ▸ Except.ok.inj h
      exact ⟨fs2, w, n2, heq, by rw [heq2, h1], h2.symm⟩

/-- A successful job run never changes a path that is no queued job's
destination. -/
theorem runJobs_preserves (cfg : Config) :
    ∀ (js : List Job) (fs : FS) (now : ℤ) (fs2 : FS) (n : ℕ),
      runJobs cfg js fs now = .ok (fs2, n) →
      ∀ p, (∀ j ∈ js, p ≠ pyUnquote j.dst) → fs2 p = fs p := by
  intro js
  induction js with
  | nil =>
    intro fs now fs2 n h p _
    simp only [runJobs] at h
    obtain ⟨h1, -⟩ := Prod.mk.injEq .. ▸ Except.ok.inj h
    rw [← h1]
  | cons j js ih =>
    intro fs now fs3 n h p hp
    obtain ⟨fs2, w, n2, h1, h2, -⟩ := runJobs_cons_ok cfg j js fs now fs3 n h
    rw [ih fs2 now fs3 n2 h2 p (fun j2 hj2 => hp j2 (List.mem_cons_of_mem j hj2))]
    exact process_image_preserves cfg j fs now fs2 w h1 p (hp j (List.mem_cons_self j js))

/-- After a successful job run, every path either kept its old state or
now holds a file written at the run's clock. -/
theorem runJobs_invA (cfg : Config) :
    ∀ (js : List Job) (fs : FS) (now : ℤ) (fs2 : FS) (n : ℕ),
      runJobs cfg js fs now = .ok (fs2, n) →
      ∀ p, fs2 p = fs p ∨ ∃ im, fs2 p = some ⟨now, some im⟩ := by
  intro js
  induction js with
  | nil =>
    intro fs now fs2 n h p
    simp only [runJobs] at h
    obtain ⟨h1, -⟩ := Prod.mk.injEq .. ▸ Except.ok.inj h
    exact .inl (by rw [← h1])
  | cons j js ih =>
    intro fs now fs3 n h p
    obtain ⟨fs2, w, n2, h1, h2, -⟩ := runJobs_cons_ok cfg j js fs now fs3 n h
    rcases ih fs2 now fs3 n2 h2 p with htail | ⟨im, hw⟩
    · rw [htail]
      exact process_image_invA cfg j fs now fs2 w h1 p
    · exact .inr ⟨im, hw⟩

/-- With the force flag off, an up-to-date destination makes
`process_image` skip the job, leaving the filesystem unchanged. -/
theorem process_image_skip (cfg : Config) (j : Job) (fs : FS) (now : ℤ) (si di : FileInfo)
    (hf : cfg.force = false)
    (hs : fs (pyUnquote j.src) = some si)
    (hd : fs (pyUnquote j.dst) = some di)
    (hle : si.mtime ≤ di.mtime) :
    process_image cfg j fs now = .ok (fs, false) := by
  simp only [process_image, shouldBuild, hf, hd, hs]
  simp [not_lt.mpr hle]

/-- With the force flag off and an existing but undecodable source, the
job never writes: the gate either skips it or the open is abandoned. -/
theorem process_image_abandon (cfg : Config) (j : Job) (fs : FS) (now : ℤ) (si : FileInfo)
    (hf : cfg.force = false)
    (hs : fs (pyUnquote j.src) = some si)
    (hbad : si.image = none) :
    process_image cfg j fs now = .ok (fs, false) := by
  simp only [process_image, shouldBuild, hf, hs, hbad]
  cases hd : fs (pyUnquote j.dst) with
  | none => simp
  | some di => by_cases hgt : di.mtime < si.mtime <;> simp [hgt]

/-- Analysis of a no-write pass over a job whose source exists: either the
source is undecodable, or the destination existed with an mtime at least
the source's. -/
theorem process_image_nowrite (cfg : Config) (j : Job) (fs : FS) (now : ℤ) (si : FileInfo)
    (fs2 : FS)
    (hf : cfg.force = false)
    (hs : fs (pyUnquote j.src) = some si)
    (h : process_image cfg j fs now = .ok (fs2, false)) :
    si.image = none ∨ ∃ di, fs (pyUnquote j.dst) = some di ∧ si.mtime ≤ di.mtime := by
  simp only [process_image, shouldBuild, hf] at h
  split at h
  · simp at h
  next hgate =>
    simp only [Bool.false_eq_true, if_false] at hgate
    rcases hd : fs (pyUnquote j.dst) with _ | di
    · rw [hd] at hgate
      simp at hgate
    · rw [hd] at hgate
      simp only [hs] at hgate
      refine .inr ⟨di, rfl, ?_⟩
      have hdec : decide (si.mtime > di.mtime) = false := by
        simpa using hgate
      exact not_lt.mp (by simpa using hdec)
  next hgate =>
    split at h
    next hsrc2 =>
      rw [hs] at hsrc2
      simp at hsrc2
    next fi hsrc2 =>
      rw [hs] at hsrc2
      injection hsrc2 with hfi
      subst hfi
      split at h
      next hbad => exact .inl hbad
      next im him =>
        split at h
        · simp at h
        · simp at h

/-- Second pass over an executed job queue: if every job's source existed
with an mtime at most the first pass's clock, and no job's source is any
job's destination, then re-running the queue performs zero image writes
and leaves the filesystem untouched. -/
theorem runJobs_second_pass (cfg : Config) (hf : cfg.force = false) :
    ∀ (jobs : List Job) (fs fs1 : FS) (t1 : ℤ) (n : ℕ),
      (∀ j ∈ jobs, ∃ fi, fs (pyUnquote j.src) = some fi ∧ fi.mtime ≤ t1) →
      (∀ j ∈ jobs, ∀ j2 ∈ jobs, pyUnquote j.src ≠ pyUnquote j2.dst) →
      runJobs cfg jobs fs t1 = .ok (fs1, n) →
      ∀ t2, runJobs cfg jobs fs1 t2 = .ok (fs1, 0) := by
  intro jobs
  induction jobs with
  | nil =>
    intro fs fs1 t1 n _ _ _ t2
    simp only [runJobs]
  | cons j js ih =>
    intro fs fs1 t1 n hsrc hdisj h t2
    obtain ⟨fs2, w, n2, h1, h2, -⟩ := runJobs_cons_ok cfg j js fs t1 fs1 n h
    have hkeep : ∀ j2 ∈ j :: js, fs1 (pyUnquote j2.src) = fs (pyUnquote j2.src) := by
      intro j2 hj2
      have hstep : fs2 (pyUnquote j2.src) = fs (pyUnquote j2.src) :=
        process_image_preserves cfg j fs t1 fs2 w h1 _
          (hdisj j2 hj2 j (List.mem_cons_self j js))
      have htail : fs1 (pyUnquote j2.src) = fs2 (pyUnquote j2.src) :=
        runJobs_preserves cfg js fs2 t1 fs1 n2 h2 _
          (fun j3 hj3 => hdisj j2 hj2 j3 (List.mem_cons_of_mem j hj3))
      rw [htail, hstep]
    obtain ⟨fi, hfi, hle⟩ := hsrc j (List.mem_cons_self j js)
    have hfs1s : fs1 (pyUnquote j.src) = some fi := by
      rw [hkeep j (List.mem_cons_self j js), hfi]
    have hhead : process_image cfg j fs1 t2 = .ok (fs1, false) := by
      rcases process_image_cases cfg j fs t1 fs2 w h1 with ⟨hw, hfs⟩ | ⟨hw, im, hfs⟩
      · rw [hw] at h1
        rcases process_image_nowrite cfg j fs t1 fi fs2 hf hfi h1 with hbad | ⟨di, hdi, hled⟩
        · exact process_image_abandon cfg j fs1 t2 fi hf hfs1s hbad
        · rcases runJobs_invA cfg js fs2 t1 fs1 n2 h2 (pyUnquote j.dst) with heq | ⟨im2, hw2⟩
          · exact process_image_skip cfg j fs1 t2 fi di hf hfs1s
              (by rw [heq, hfs, hdi]) hled
          · exact process_image_skip cfg j fs1 t2 fi ⟨t1, some im2⟩ hf hfs1s hw2
              (by simpa using hle)
      · have hdst2 : fs2 (pyUnquote j.dst) = some ⟨t1, some im⟩ := by
          rw [hfs]
          exact Function.update_same _ _ _
        rcases runJobs_invA cfg js fs2 t1 fs1 n2 h2 (pyUnquote j.dst) with heq | ⟨im2, hw2⟩
        · exact process_image_skip cfg j fs1 t2 fi ⟨t1, some im⟩ hf hfs1s
            (by rw [heq, hdst2]) (by simpa using hle)
        · exact process_image_skip cfg j fs1 t2 fi ⟨t1, some im2⟩ hf hfs1s hw2
            (by simpa using hle)
    have htail2 := ih fs2 fs1 t1 n2
      (fun j2 hj2 => by
        obtain ⟨fi2, hfi2, hle2⟩ := hsrc j2 (List.mem_cons_of_mem j hj2)
        exact ⟨fi2, by
          rw [process_image_preserves cfg j fs t1 fs2 w h1 _
            (hdisj j2 (List.mem_cons_of_mem j hj2) j (List.mem_cons_self j js)), hfi2], hle2⟩)
      (fun j2 hj2 j3 hj3 =>
        hdisj j2 (List.mem_cons_of_mem j hj2) j3 (List.mem_cons_of_mem j hj3))
      h2 t2
    simp [runJobs, hhead, htail2]

/-- C9: processing a fragment is a pure function of the fragment and the
settings, so a second pass over the same fragment produces the identical
rewritten output and job queue; and with the force flag off, if the first
execution of the queue succeeded, every source existed no newer than the
first pass's clock, and no job reads another job's destination, then the
second execution performs zero image writes and leaves the filesystem
untouched. -/
theorem c9_cache_idempotence (cfg : Config) (frag : List (ImgTag × Parent))
    (outs : List ElemResult) (jobs : List Job) (fs0 fs1 : FS) (t1 : ℤ) (n : ℕ)
    (hforce : cfg.force = false)
    (hfrag : processFragment cfg frag = .ok (outs, jobs))
    (hrun : runJobs cfg jobs fs0 t1 = .ok (fs1, n))
    (hsrc : ∀ j ∈ jobs, ∃ fi, fs0 (pyUnquote j.src) = some fi ∧ fi.mtime ≤ t1)
    (hdisj : ∀ j ∈ jobs, ∀ j2 ∈ jobs, pyUnquote j.src ≠ pyUnquote j2.dst) :
    processFragment cfg frag = .ok (outs, jobs)
    ∧ ∀ t2, runJobs cfg jobs fs1 t2 = .ok (fs1, 0) :=
  ⟨hfrag, runJobs_second_pass cfg hforce jobs fs0 fs1 t1 n hsrc hdisj hrun⟩

/-- C9 witness: the single-job fragment `fragW9`, run against a
filesystem where the source exists (mtime 0) and the destination does
not; the first pass at clock 5 writes once, the second pass at clock 9
writes nothing and returns the filesystem unchanged. -/
theorem c9_cache_idempotence_witness :
    processFragment cfgW9 fragW9 = .ok (w9pair.1, w9pair.2)
    ∧ runJobs cfgW9 w9pair.2 fsW9b 9 = .ok (fsW9b, 0) := by
  have hsrcW : ∀ j ∈ w9pair.2, ∃ fi, fsW9 (pyUnquote j.src) = some fi ∧ fi.mtime ≤ 5 := by
    intro j hj
    have he : w9pair.2 = [⟨"content/tmp/test.jpg", "out/tmp/derivatives/thumb/test.jpg", []⟩] :=
      by decide
    rw [he] at hj
    simp at hj
    rw [hj]
    exact ⟨⟨0, some imW⟩, by decide, by decide⟩
  have h := c9_cache_idempotence cfgW9 fragW9 w9pair.1 w9pair.2 fsW9 fsW9b 5 1
    rfl rfl rfl hsrcW (by decide)
  exact ⟨h.1, h.2 9⟩

end ImageProcess
